import Mathlib

/-!
Verification development for the duckboard execution bridge.

The definitions below are a shallow embedding of the code in
`src/src/workers/duckdb.worker.ts` (the DuckDB worker: query controller,
engine session, handshake listener) and `src/unnamed/part_004`
(`src/providers/DuckDBProvider.tsx`: the host-side session supervisor,
`createWorkerAPI` and `initDuckDB`).

JavaScript values that flow through the row-conversion code are modelled by
an inductive `JsValue`; machine concurrency (the single-threaded worker with
`await` suspension points) is modelled by splitting each async method into
its atomic segments and letting traces interleave them.
-/

namespace Duckboard

/-! ## JavaScript values and the row-conversion helpers

`query` converts every Arrow cell with
`(value && typeof value?.toString === 'function') ? value.toString() : String(value)`.
We model the JS values that can appear in a result cell: `null`, `undefined`,
booleans, (integer) numbers, strings, and rich engine-native objects, which
carry the string their `toString` method renders. -/

inductive JsValue where
  | vNull
  | vUndef
  | vBool (b : Bool)
  | vNum (n : Int)
  | vStr (s : String)
  | vObj (toStr : String)
deriving Repr, DecidableEq

namespace JsValue

/-- JS truthiness of a value (`value &&` in the conversion ternary). -/
def truthy : JsValue → Bool
  | vNull => false
  | vUndef => false
  | vBool b => b
  | vNum n => n != 0
  | vStr s => s ≠ ""
  | vObj _ => true

/-- Model of `typeof value?.toString === 'function'`: every JS value except `null` and
`undefined` inherits a callable `toString` from its prototype. -/
def hasToStringFn : JsValue → Bool
  | vNull => false
  | vUndef => false
  | _ => true

/-- The result of calling `value.toString()` (only meaningful when
`hasToStringFn`; we give the prototype renderings). -/
def toStringCall : JsValue → String
  | vNull => ""          -- unreachable: guarded by hasToStringFn
  | vUndef => ""         -- unreachable: guarded by hasToStringFn
  | vBool b => if b then ("true") else ("false")
  | vNum n => toString n
  | vStr s => s
  | vObj t => t

/-- The result of `String(value)`. -/
def stringCoerce : JsValue → String
  | vNull => "null"
  | vUndef => "undefined"
  | vBool b => if b then ("true") else ("false")
  | vNum n => toString n
  | vStr s => s
  | vObj t => t

/-- Whether a value is a JS string. -/
def isStr : JsValue → Bool
  | vStr _ => true
  | _ => false

end JsValue

open JsValue

/-- The per-cell conversion in `query`/`queryStream`:
`(value && typeof value?.toString === 'function') ? value.toString() : String(value)`. -/
def displayString (v : JsValue) : String :=
  if v.truthy && v.hasToStringFn then v.toStringCall else v.stringCoerce

/-! ## The engine as an opaque collaborator

`conn.query(sql)` receives only the SQL text.  In particular the
`AbortController` created by `query` is never passed to it: the code at
`duckdb.worker.ts` lines 326-361 calls `this.conn.query(sql)` with no signal
argument.  A successful call yields an Arrow result: an ordered field list
(`result.schema.fields`) and rows, each row read by field name
(`row[field.name]`). -/

structure EngineResult where
  fields : List String
  rows : List (String → JsValue)

/-- Outcome of one `conn.query` call: an Arrow result or a thrown error with
its `name` and message. -/
inductive EngineOutcome where
  | success (r : EngineResult)
  | failure (name msg : String)

/-- Row conversion of `query` (lines 341-349): one object per row, keys in
engine-reported field order, every cell stringified by `displayString`. -/
def convertRow (fields : List String) (row : String → JsValue) : List (String × JsValue) :=
  fields.map fun f => (f, JsValue.vStr (displayString (row f)))

/-- Model of `result.toArray().map(...)` in `query`: all rows converted. -/
def convertRows (r : EngineResult) : List (List (String × JsValue)) :=
  r.rows.map (convertRow r.fields)

/-- The columnar result shape of `queryStream` (lines 363-393):
`{ columns, data, totalRows }`. -/
structure StreamResult where
  columns : List String
  data : List (List JsValue)
  totalRows : Nat
deriving Repr

/-- Conversion done by `queryStream`: column names from the schema, rows as arrays
of stringified cells, `totalRows = rows.length` taken before the map. -/
def convertColumnar (r : EngineResult) : StreamResult :=
  { columns := r.fields
  , data := r.rows.map fun row => r.fields.map fun f => JsValue.vStr (displayString (row f))
  , totalRows := r.rows.length }

/-! ## The query controller as an interleaving machine

The worker context is single threaded; each `async` method runs atomically
between `await` points.  `query(sql)` has two atomic segments:

* segment 1 (lines 326-337, up to `await this.conn.query(sql)`): check the
  connection, `abort()` the controller in the current slot if any, install a
  fresh `AbortController` in the slot, and issue the engine call;
* segment 2 (lines 341-360, after the engine call settles): convert the rows
  on success, return `[]` if the thrown error's name is `'AbortError'`,
  re-throw otherwise; the `finally` block clears the slot unconditionally.

`cancelQuery` (lines 395-400) has no `await`: it is a single atomic step.
`queryStream` (lines 363-393) never reads or writes
`currentQueryController`.

Controllers are identified by allocation order (`Nat`).  `aborted` records
the tokens whose `abort()` was called, `running` the tokens of `query`
invocations that are past segment 1 and have not yet run their `finally`. -/

structure WState where
  /-- Field `currentQueryController` (`none` = `null`). -/
  slot : Option Nat
  /-- Next fresh controller id. -/
  nextTok : Nat
  /-- Controllers whose `abort()` has been called. -/
  aborted : List Nat
  /-- Controllers of in-flight `query` invocations (past segment 1,
  `finally` not yet run). -/
  running : List Nat
deriving Repr, DecidableEq

/-- The worker's initial controller state: `currentQueryController = null`. -/
def wInit : WState := { slot := none, nextTok := 0, aborted := [], running := [] }

/-- Segment 1 of `query(sql)` (connection assumed open): abort the slotted
controller if any, install a fresh one, record the invocation as in flight.
Returns the new invocation's token. -/
def qStart (s : WState) : WState × Nat :=
  let aborted1 : List Nat :=
    match s.slot with
    | some t => t :: s.aborted
    | none => s.aborted
  ({ slot := some s.nextTok
   , nextTok := s.nextTok + 1
   , aborted := aborted1
   , running := s.nextTok :: s.running }, s.nextTok)

/-- What one `query` invocation's promise settles to. -/
inductive QueryOutcome where
  | resolved (rows : List (List (String × JsValue)))
  | rejected (name msg : String)
deriving Repr, DecidableEq

/-- Segment 2 of `query(sql)` for the invocation holding token `tok`, once
its engine call settled with outcome `o`.  The outcome `o` is a function of
the SQL alone — `this.conn.query(sql)` is never given the abort signal, so
`o` does not depend on `aborted`.  The `finally` clears the slot on every
path. -/
def qFinish (s : WState) (tok : Nat) (o : EngineOutcome) : WState × QueryOutcome :=
  let res : QueryOutcome :=
    match o with
    | .success r => .resolved (convertRows r)
    | .failure name msg =>
        if name = "AbortError" then .resolved [] else .rejected name msg
  ({ s with slot := none, running := s.running.erase tok }, res)

/-- Model of `cancelQuery()`: abort and clear the slotted controller if any, else do
nothing.  The body has no throwing construct. -/
def cancelQuery (s : WState) : WState :=
  match s.slot with
  | some t => { s with aborted := t :: s.aborted, slot := none }
  | none => s

/-- Model of `queryStream(sql)` as a state transition: the method body never touches
`currentQueryController`, so both of its atomic segments leave the
controller state unchanged; its promise settles from the engine outcome. -/
def qsRun (s : WState) (o : EngineOutcome) : WState × Except (String × String) StreamResult :=
  match o with
  | .success r => (s, .ok (convertColumnar r))
  | .failure name msg => (s, .error (name, msg))

/-- One observable scheduler step of the worker's controller state. -/
inductive WStep : WState → WState → Prop where
  | start (s : WState) : WStep s (qStart s).1
  | finish (s : WState) (tok : Nat) (o : EngineOutcome) (h : tok ∈ s.running) :
      WStep s (qFinish s tok o).1
  | cancel (s : WState) : WStep s (cancelQuery s)
  | stream (s : WState) (o : EngineOutcome) : WStep s (qsRun s o).1

/-- States the worker can reach from start-up. -/
inductive Reachable : WState → Prop where
  | init : Reachable wInit
  | step {s s' : WState} : Reachable s → WStep s s' → Reachable s'

/-- The superseded-query scenario: `query(a)` starts, then `query(b)` starts
while `a` is still running, then `a`'s engine call settles, then `b`'s.
Returns the final state and each call's outcome. -/
def runTwoQueries (oa ob : EngineOutcome) : WState × QueryOutcome × QueryOutcome :=
  let (s1, tokA) := qStart wInit
  let (s2, tokB) := qStart s1
  let (s3, resA) := qFinish s2 tokA oa
  let (s4, resB) := qFinish s3 tokB ob
  (s4, resA, resB)

/-! ## The worker's handshake listener (`duckdb.worker.ts` lines 517-547)

The worker installs one `message` listener on its default inbound path.
A message is acted on exactly when
`data && data.__duckdb_comlink_init__ && data.port && !exposed`; acting
starts the received port, binds the Comlink capability surface to it, sets
`exposed = true`, and posts `{__duckdb_comlink_ready__: true}` on the
worker's default outbound path (`postMessage`, not `port.postMessage`). -/

structure InMsg where
  /-- Whether `data` is truthy. -/
  dataTruthy : Bool
  /-- Whether `data.__duckdb_comlink_init__` is truthy. -/
  initFlag : Bool
  /-- Value of `data.port` (truthy iff present). -/
  port : Option Nat
deriving Repr, DecidableEq

/-- The guard of the listener body:
`data && data.__duckdb_comlink_init__ && data.port && !exposed` minus the
`exposed` conjunct, which lives in the listener state. -/
def wellFormedInit (m : InMsg) : Bool :=
  m.dataTruthy && m.initFlag && m.port.isSome

structure ListenerState where
  /-- The module-level `exposed` flag. -/
  exposed : Bool
  /-- The port the capability surface was exposed on, if any. -/
  bound : Option Nat
  /-- Control messages posted on the worker's default outbound path; `true`
  stands for a `{__duckdb_comlink_ready__: true}` message. -/
  defaultOut : List Bool
  /-- Control messages posted on the received channel endpoint (the listener
  never posts there). -/
  channelOut : List Bool
deriving Repr, DecidableEq

def listenerInit : ListenerState :=
  { exposed := false, bound := none, defaultOut := [], channelOut := [] }

/-- One delivery of a message to the worker's default inbound listener. -/
def onMessage (s : ListenerState) (m : InMsg) : ListenerState :=
  if wellFormedInit m && !s.exposed then
    { exposed := true
    , bound := m.port
    , defaultOut := s.defaultOut ++ [true]
    , channelOut := s.channelOut }
  else s

/-- Delivering a whole inbound message sequence to the listener. -/
def runListener (ms : List InMsg) : ListenerState :=
  ms.foldl onMessage listenerInit

/-! ## The engine session: `initialize` (`duckdb.worker.ts` lines 272-311)

`initialize` first tests `this.db && this.conn` and returns immediately when
both are set.  Otherwise it selects a bundle, creates the engine worker,
constructs the `AsyncDuckDB` (assigning `this.db` *before* instantiation),
instantiates it, connects (assigning `this.conn`), and records the bundle
and the wall-clock duration.  Failures propagate as
`DuckDB initialization failed: ...`. -/

structure SessionState where
  /-- Field `this.db` (`none` = `null`); the payload identifies the instance. -/
  db : Option Nat
  /-- Field `this.conn`. -/
  conn : Option Nat
  /-- Field `this.lastBundle` (payload: bundle identifier). -/
  lastBundle : Option Nat
  /-- Field `this.initializationTimeMs`. -/
  initializationTimeMs : Option Nat
deriving Repr, DecidableEq

/-- The fresh worker's session state: all fields `null`. -/
def sessionInit : SessionState :=
  { db := none, conn := none, lastBundle := none, initializationTimeMs := none }

/-- Test `this.db && this.conn`: the session is Ready. -/
def SessionState.ready (s : SessionState) : Bool :=
  s.db.isSome && s.conn.isSome

/-- Observable external actions of `initialize`. -/
inductive InitEffect where
  | selectBundle
  | createEngineWorker
  | instantiate
  | connect
deriving Repr, DecidableEq

/-- Environment for one `initialize` run: which bundle the capability probe
selects, fresh instance ids, whether `instantiate` and `connect` succeed,
and the measured duration. -/
structure InitEnv where
  bundleId : Nat
  dbId : Nat
  connId : Nat
  instantiateOk : Bool
  connectOk : Bool
  durationMs : Nat

structure InitRun where
  state : SessionState
  effects : List InitEffect
  outcome : Except String Unit

/-- Model of `initialize()` as a state transition with an effect log. -/
def workerInitialize (env : InitEnv) (s : SessionState) : InitRun :=
  if s.db.isSome && s.conn.isSome then
    -- Idempotent: if already initialized, do nothing
    { state := s, effects := [], outcome := .ok () }
  else
    -- selectBundle; new Worker(bundle.mainWorker); this.db = new AsyncDuckDB(...)
    let s1 : SessionState := { s with db := some env.dbId }
    if env.instantiateOk then
      if env.connectOk then
        { state := { s1 with conn := some env.connId
                           , lastBundle := some env.bundleId
                           , initializationTimeMs := some env.durationMs }
        , effects := [.selectBundle, .createEngineWorker, .instantiate, .connect]
        , outcome := .ok () }
      else
        { state := s1
        , effects := [.selectBundle, .createEngineWorker, .instantiate, .connect]
        , outcome := .error ("DuckDB initialization failed") }
    else
      { state := s1
      , effects := [.selectBundle, .createEngineWorker, .instantiate]
      , outcome := .error ("DuckDB initialization failed") }

/-! ## `copyQueryToParquet` (`duckdb.worker.ts` lines 456-474)

The sanitizer is `(sql ?? '').replace(/;\s*$/m, '')`: replace the *first*
(leftmost) match of `;\s*$` under the multiline flag — a semicolon followed
by a greedily-maximal run of `\s` characters ending at a position that is
either the end of the string or immediately before a line terminator.  The
emptiness test is `!cleanSql.trim()`. -/

/-- ECMA-262 `\s` (WhiteSpace ∪ LineTerminator), by code point: TAB LF VT FF
CR SP NBSP OGHAM, the EN-QUAD..HAIR-SPACE range, LS PS NNBSP MMSP IDEOGRAPHIC
ZWNBSP. -/
def jsWhitespace (c : Char) : Bool :=
  (c.toNat ∈ [0x9, 0xa, 0xb, 0xc, 0xd, 0x20, 0xa0, 0x1680,
              0x2028, 0x2029, 0x202f, 0x205f, 0x3000, 0xfeff])
  || (0x2000 ≤ c.toNat && c.toNat ≤ 0x200a)

/-- ECMA-262 LineTerminator (LF CR LS PS), the characters multiline `$`
matches before. -/
def jsLineTerminator (c : Char) : Bool :=
  c.toNat ∈ [0xa, 0xd, 0x2028, 0x2029]

/-- Multiline `$` holds at this suffix position: end of input or a line
terminator next. -/
def lineEndAt : List Char → Bool
  | [] => true
  | c :: _ => jsLineTerminator c

/-- Length of the maximal `\s*` prefix. -/
def wsPrefixLen : List Char → Nat
  | [] => 0
  | c :: cs => if jsWhitespace c then wsPrefixLen cs + 1 else 0

/-- Greedy-with-backtracking match of `\s*$` against `rest`: the largest
`k ≤ wsPrefixLen rest` with a line end after `k` whitespace characters,
`none` when no `k` qualifies. -/
def bestK (rest : List Char) : Option Nat :=
  (List.range (wsPrefixLen rest + 1)).reverse.find? fun k => lineEndAt (rest.drop k)

/-- Model of `.replace(/;\s*$/m, '')` on a character list: delete the leftmost
semicolon at which `;\s*$` matches, together with its matched whitespace. -/
def stripSemi : List Char → List Char
  | [] => []
  | c :: cs =>
    if c = ';' then
      match bestK cs with
      | some k => cs.drop k
      | none => c :: stripSemi cs
    else c :: stripSemi cs

/-- JS `String.prototype.trim` (strips WhiteSpace ∪ LineTerminator at both
ends). -/
def jsTrim (cs : List Char) : List Char :=
  ((cs.dropWhile jsWhitespace).reverse.dropWhile jsWhitespace).reverse

/-- The `cleanSql` computed by `copyQueryToParquet`. -/
def cleanSqlOf (sql : String) : String :=
  String.mk (stripSemi sql.data)

/-- Errors `copyQueryToParquet` can reject with. -/
inductive CopyError where
  | notConnected
  | emptyQuery
  | engineError (msg : String)
deriving Repr, DecidableEq

/-- Calls `copyQueryToParquet` issues against the engine. -/
inductive EngineCall where
  | connQuery (sql : String)
  | copyFileToBuffer (name : String)
deriving Repr, DecidableEq

/-- The SQL single-quote character, U+0027. -/
def sqlQuote : String := String.mk [Char.ofNat 39]

/-- Model of `copyQueryToParquet(sql, fileName)`.  Here `connected` models
`this.conn && this.db`; `engine` is the outcome of `conn.query` on the COPY
statement; `fileBytes` is `db.copyFileToBuffer`.  Returns the settled value
and the list of engine calls issued, in order. -/
def copyQueryToParquet (connected : Bool) (engine : String → Except String Unit)
    (fileBytes : String → List Nat) (sql fileName : String) :
    Except CopyError (List Nat) × List EngineCall :=
  if !connected then (.error .notConnected, [])
  else
    let cleanSql := cleanSqlOf sql
    if (jsTrim cleanSql.data).isEmpty then (.error .emptyQuery, [])
    else
      let copySql := "COPY (" ++ cleanSql ++ ") TO " ++ sqlQuote ++ fileName ++ sqlQuote
                       ++ " (FORMAT PARQUET)"
      match engine copySql with
      | .error m => (.error (.engineError m), [.connQuery copySql])
      | .ok _ => (.ok (fileBytes fileName), [.connQuery copySql, .copyFileToBuffer fileName])

/-- Reply of `getMethods()` (`duckdb.worker.ts` line 453): a fixed list. -/
def workerGetMethods : List String :=
  ["initialize", "registerFile", "query", "queryStream", "cancelQuery",
   "getTableInfo", "createView", "ping", "copyQueryToParquet", "getDiagnostics"]

/-- Reply of `ping()` (`duckdb.worker.ts` lines 448-450). -/
def workerPing : String := "ok"

/-! ## Host-side session supervisor (`src/unnamed/part_004`, DuckDBProvider)

`createWorkerAPI` (lines 62-112) creates a fresh `Worker` and a fresh
`MessageChannel`, posts `{__duckdb_comlink_init__, port}` to the worker, and
waits for `{__duckdb_comlink_ready__: true}` on the worker's default path
under a 5000 ms `setTimeout` that rejects with `Worker handshake timeout`.

`initDuckDB` (lines 114-189) increments `initAttemptRef`, runs
`createWorkerAPI`, `remote.initialize()`, `remote.ping()` (requiring the
reply `ok`), and `remote.getMethods()` (requiring the four
`requiredMethods`).  On success it publishes the API and sets the readiness
flag.  Its `catch` logs the error, terminates the current worker, and — only
when `initAttemptRef.current === 1` — schedules one re-run after 1000 ms; it
rethrows nothing, so no error value ever reaches `initDuckDB`'s caller.
We model the mounted, non-StrictMode-replay run (`isMounted = true`
throughout). -/

namespace Provider

/-- Ways one initialization attempt can fail (the distinct `throw`/`reject`
sites of `createWorkerAPI` and `initDuckDB`). -/
inductive InitError where
  | handshakeTimeout
  | initializeFailed (msg : String)
  | pingFailed (pong : String)
  | missingCapability (missing : List String)
deriving Repr, DecidableEq

/-- The worker and channel endpoints allocated by one `createWorkerAPI`
call: `new Worker(...)` and `new MessageChannel()` always yield fresh
objects, modelled by consecutive ids from an allocation counter. -/
structure Endpoints where
  workerId : Nat
  portMain : Nat
  portWorker : Nat
deriving Repr, DecidableEq

/-- The `setTimeout` ceiling on the `bridge-ready` wait (line 95). -/
def handshakeTimeoutMs : Nat := 5000

/-- The retry delay of the supervisor (line 186). -/
def retryDelayMs : Nat := 1000

/-- Environment of one attempt: when (in ms) the ready ack arrives on the
worker's default path (`none` = never), whether `remote.initialize()`
resolves, the `ping` reply, and the `getMethods` reply. -/
structure AttemptEnv where
  readyDelay : Option Nat
  initOutcome : Except String Unit
  pong : String
  methods : List String

/-- Model of `createWorkerAPI`: allocate a fresh worker and channel pair from `ctr`,
then wait for the ready ack; the promise resolves if the ack arrives before
the 5000 ms timer fires, and rejects with the handshake timeout otherwise.
Returns the advanced allocation counter, the endpoints, and the outcome. -/
def createWorkerAPI (ctr : Nat) (readyDelay : Option Nat) :
    Nat × Endpoints × Except InitError Unit :=
  let eps : Endpoints := { workerId := ctr, portMain := ctr + 1, portWorker := ctr + 2 }
  let out : Except InitError Unit :=
    match readyDelay with
    | some t => if t < handshakeTimeoutMs then .ok () else .error .handshakeTimeout
    | none => .error .handshakeTimeout
  (ctr + 3, eps, out)

/-- List `requiredMethods` (line 134). -/
def requiredMethods : List String := ["initialize", "registerFile", "query", "ping"]

/-- Result of one attempt body (the `try` block of `initDuckDB`). -/
structure AttemptResult where
  ctr : Nat
  endpoints : Endpoints
  outcome : Except InitError Unit

/-- The `try` block of `initDuckDB`: create/wrap the worker, `initialize`,
`ping` (must equal `ok`), `getMethods` (must contain every required
method; the thrown error carries the missing ones, in `requiredMethods`
order). -/
def runAttempt (ctr : Nat) (env : AttemptEnv) : AttemptResult :=
  let (ctr2, eps, hs) := createWorkerAPI ctr env.readyDelay
  let outcome : Except InitError Unit :=
    match hs with
    | .error e => .error e
    | .ok _ =>
      match env.initOutcome with
      | .error m => .error (.initializeFailed m)
      | .ok _ =>
        if env.pong ≠ "ok" then .error (.pingFailed env.pong)
        else
          let missing := requiredMethods.filter fun m => !env.methods.contains m
          if missing.isEmpty then .ok ()
          else .error (.missingCapability missing)
  { ctr := ctr2, endpoints := eps, outcome := outcome }

/-- What a whole supervisor run produces (observables of `initDuckDB`). -/
structure SupRun where
  /-- Flag `isInitialized` after the run settles. -/
  ready : Bool
  /-- How many attempts were made. -/
  attempts : Nat
  /-- How many times `worker.terminate()` was called. -/
  terminations : Nat
  /-- The error value `initDuckDB` surfaces to its caller (`none`: the
  `catch` swallows every error and the function resolves with `undefined`). -/
  surfaced : Option InitError
  /-- Endpoints allocated by each attempt, in order. -/
  attemptEndpoints : List Endpoints
  /-- Delays (ms) slept before each re-run, in order. -/
  retryDelays : List Nat
deriving Repr, DecidableEq

/-- Model of `initDuckDB`: one attempt; on success publish and stop; on failure
terminate the worker (the error is only logged, never rethrown) and re-run
exactly when this was attempt number 1, after `retryDelayMs`. -/
def initDuckDB (env : Nat → AttemptEnv) (attemptRef : Nat) (ctr : Nat) : SupRun :=
  let attempt := attemptRef + 1
  let r := runAttempt ctr (env attempt)
  match r.outcome with
  | .ok _ =>
      { ready := true, attempts := 1, terminations := 0, surfaced := none
      , attemptEndpoints := [r.endpoints], retryDelays := [] }
  | .error _ =>
      if _h : attempt = 1 then
        let rest := initDuckDB env attempt r.ctr
        { ready := rest.ready, attempts := 1 + rest.attempts
        , terminations := 1 + rest.terminations, surfaced := rest.surfaced
        , attemptEndpoints := r.endpoints :: rest.attemptEndpoints
        , retryDelays := retryDelayMs :: rest.retryDelays }
      else
        { ready := false, attempts := 1, terminations := 1, surfaced := none
        , attemptEndpoints := [r.endpoints], retryDelays := [] }
termination_by 2 - attemptRef
decreasing_by omega

end Provider

/-! ## Comparison definition and concrete scenarios -/

/-- Comparison definition following the spec's words (§4.4, §8): strip a
single trailing statement terminator — a final semicolon, possibly followed
by trailing whitespace — from the end of the whole string, and nothing
else. -/
def specStripTrailingTerminator (cs : List Char) : List Char :=
  let rev2 := cs.reverse.dropWhile jsWhitespace
  match rev2 with
  | c :: rest => if c = ';' then rest.reverse else cs
  | [] => cs

/-- Engine outcome used in concrete scenarios: query `a` returns one row
with the single field `x` holding the number 1. -/
def engA : EngineOutcome := .success ⟨["x"], [fun _ => JsValue.vNum 1]⟩

/-- Engine outcome used in concrete scenarios: query `b` returns one row
with the single field `y` holding the string `z`. -/
def engB : EngineOutcome := .success ⟨["y"], [fun _ => JsValue.vStr ("z")]⟩

/-- Attempt environment whose handshake ready ack never arrives: every
supervisor attempt fails at the handshake step. -/
def envFailBoth : Nat → Provider.AttemptEnv := fun _ =>
  { readyDelay := none, initOutcome := .ok (), pong := "ok", methods := [] }

/-- Attempt environment that passes handshake, initialize and ping but
reports only `ping` from `getMethods`, so three required methods are
missing. -/
def envMissing : Provider.AttemptEnv :=
  { readyDelay := some 0, initOutcome := .ok (), pong := "ok", methods := ["ping"] }

/-- Satisfied by an attempt environment that reaches the capability check
and is missing at least one required method there. -/
def attemptMissesRequired (e : Provider.AttemptEnv) : Prop :=
  (∃ t, e.readyDelay = some t ∧ t < Provider.handshakeTimeoutMs) ∧
  e.initOutcome = .ok () ∧ e.pong = "ok" ∧
  Provider.requiredMethods.filter (fun m => !e.methods.contains m) ≠ []

end Duckboard

namespace Duckboard

/-! ## Helper lemmas -/

/-- Once `exposed` is set, the listener ignores every further message. -/
theorem foldl_onMessage_exposed (ms : List InMsg) (s : ListenerState)
    (h : s.exposed = true) : ms.foldl onMessage s = s := by
  induction ms with
  | nil => rfl
  | cons m ms ih =>
      have hm : onMessage s m = s := by simp [onMessage, h]
      simp [List.foldl_cons, hm, ih]

/-- One step of the controller machine preserves the slot-in-running
property. -/
theorem wstep_preserves_slot {s s' : WState} (hstep : WStep s s')
    (ih : ∀ t, s.slot = some t → t ∈ s.running) :
    ∀ t, s'.slot = some t → t ∈ s'.running := by
  cases hstep with
  | start =>
      intro t ht
      simp only [qStart, Option.some.injEq] at ht
      subst ht
      simp [qStart]
  | finish tok o htok =>
      intro t ht
      simp [qFinish] at ht
  | cancel =>
      intro t ht
      cases hsl : s.slot with
      | none =>
          rw [show cancelQuery s = s from by simp [cancelQuery, hsl]] at ht ⊢
          exact ih t ht
      | some u => simp [cancelQuery, hsl] at ht
  | stream o =>
      intro t ht
      have hqs : (qsRun s o).1 = s := by cases o <;> rfl
      rw [hqs] at ht ⊢
      exact ih t ht

/-- In every reachable controller state, a controller sitting in the slot
belongs to an in-flight `query` invocation. -/
theorem reachable_slot_mem_running {s : WState} (h : Reachable s) :
    ∀ t, s.slot = some t → t ∈ s.running := by
  induction h with
  | init => intro t ht; simp [wInit] at ht
  | step _ hstep ih => exact wstep_preserves_slot hstep ih

/-- Every attempt allocates a fresh worker and a fresh channel pair: the
endpoints and the advanced allocation counter do not depend on the attempt's
outcome. -/
theorem runAttempt_endpoints (ctr : Nat) (env : Provider.AttemptEnv) :
    (Provider.runAttempt ctr env).endpoints = ⟨ctr, ctr + 1, ctr + 2⟩ ∧
    (Provider.runAttempt ctr env).ctr = ctr + 3 :=
  ⟨rfl, rfl⟩

/-- Closed-form characterization of a whole supervisor run: attempt 1, and
on its failure exactly one re-run after the fixed delay, whose failure is
terminal and silent. -/
theorem initDuckDB_run_eq (env : Nat → Provider.AttemptEnv) (ctr : Nat) :
    Provider.initDuckDB env 0 ctr =
      (match (Provider.runAttempt ctr (env 1)).outcome with
       | .ok _ =>
         { ready := true, attempts := 1, terminations := 0, surfaced := none
         , attemptEndpoints := [(Provider.runAttempt ctr (env 1)).endpoints]
         , retryDelays := [] }
       | .error _ =>
         match (Provider.runAttempt (Provider.runAttempt ctr (env 1)).ctr (env 2)).outcome with
         | .ok _ =>
           { ready := true, attempts := 2, terminations := 1, surfaced := none
           , attemptEndpoints := [(Provider.runAttempt ctr (env 1)).endpoints,
               (Provider.runAttempt (Provider.runAttempt ctr (env 1)).ctr (env 2)).endpoints]
           , retryDelays := [Provider.retryDelayMs] }
         | .error _ =>
           { ready := false, attempts := 2, terminations := 2, surfaced := none
           , attemptEndpoints := [(Provider.runAttempt ctr (env 1)).endpoints,
               (Provider.runAttempt (Provider.runAttempt ctr (env 1)).ctr (env 2)).endpoints]
           , retryDelays := [Provider.retryDelayMs] }) := by
  rw [Provider.initDuckDB, Provider.initDuckDB]
  norm_num
  cases h1 : (Provider.runAttempt ctr (env 1)).outcome with
  | ok u => simp [h1]
  | error e1 =>
      cases h2 : (Provider.runAttempt (Provider.runAttempt ctr (env 1)).ctr (env 2)).outcome with
      | ok v => simp [h1, h2]
      | error e2 => simp [h1, h2]

/-- An attempt that reaches the capability check with a required method
absent fails with the missing-capability error listing exactly the absent
methods. -/
theorem runAttempt_missing (ctr : Nat) (env : Provider.AttemptEnv)
    (h : attemptMissesRequired env) :
    (Provider.runAttempt ctr env).outcome
        = .error (.missingCapability
            (Provider.requiredMethods.filter fun m => !env.methods.contains m)) := by
  obtain ⟨⟨t, hd, ht⟩, hinit, hpong, hmiss⟩ := h
  have hne : (Provider.requiredMethods.filter
      fun m => !env.methods.contains m).isEmpty = false := by
    rw [List.isEmpty_eq_false]
    exact hmiss
  simp [Provider.runAttempt, Provider.createWorkerAPI, hd, ht, hinit, hpong, hne]
  by_contra hno
  push_neg at hno
  refine hmiss (List.filter_eq_nil_iff.mpr ?_)
  intro a ha
  simp [hno a ha]

/-! ## Claim theorems -/

/-- C1, counterexample: in the superseded-query scenario (`query(a)` then
`query(b)` while `a` is still running), `query(a)`'s promise does not
resolve to an empty array: it resolves to the real converted result of `a`,
because the signalled abort controller is never handed to the engine call. -/
theorem c1_superseded_query_not_empty :
    (runTwoQueries engA engB).2.1 ≠ QueryOutcome.resolved [] ∧
    (runTwoQueries engA engB).2.1
      = QueryOutcome.resolved [[("x", JsValue.vStr ("1"))]] := by
  constructor <;> decide

/-- C1, amended: when `query(b)` starts while `query(a)` is still running,
`a`'s cancellation token (token 0) is signalled, but the engine call never
observes the signal, so `query(a)`'s promise resolves to the real converted
result of `a` and `query(b)`'s promise resolves to the real converted
result of `b`. -/
theorem c1_superseded_query_semantics (ra rb : EngineResult) :
    (runTwoQueries (.success ra) (.success rb)).1.aborted = [0] ∧
    (runTwoQueries (.success ra) (.success rb)).2.1
      = QueryOutcome.resolved (convertRows ra) ∧
    (runTwoQueries (.success ra) (.success rb)).2.2
      = QueryOutcome.resolved (convertRows rb) :=
  ⟨rfl, rfl, rfl⟩

/-- C3, counterexample: starting `queryStream` while a prior `query` holds
the controller slot and is running signals nothing: the controller state is
left unchanged and the prior execution's token (0) is not aborted, contrary
to the claim that `queryStream` has the cancellation semantics of `query`. -/
theorem c3_stream_does_not_signal_prior :
    ((qStart wInit).1.slot = some 0) ∧ (0 ∈ (qStart wInit).1.running) ∧
    ((qsRun (qStart wInit).1 engB).1 = (qStart wInit).1) ∧
    (0 ∉ ((qsRun (qStart wInit).1 engB).1).aborted) := by
  refine ⟨rfl, by decide, rfl, by decide⟩

/-- C3, amended: `queryStream` does not interact with the cancellation slot
at all — it neither signals a prior running execution's token nor registers
its own — and on success it returns the columnar result whose columns are
the engine-reported field names and whose `totalRows` equals the number of
result rows (the length of its rows-as-arrays data). -/
theorem c3_queryStream_semantics (s : WState) (r : EngineResult) :
    (qsRun s (.success r)).1 = s ∧
    (qsRun s (.success r)).2 = .ok (convertColumnar r) ∧
    (convertColumnar r).columns = r.fields ∧
    (convertColumnar r).totalRows = r.rows.length ∧
    (convertColumnar r).data.length = (convertColumnar r).totalRows ∧
    (∀ o : EngineOutcome, (qsRun s o).1 = s) :=
  ⟨rfl, rfl, rfl, rfl, by simp [convertColumnar], fun o => by cases o <;> rfl⟩

/-- C6: the worker's default-path listener acts on the first well-formed
bridge-init envelope only — binding the capability surface to that
envelope's port and posting exactly one bridge-ready control message on the
default outbound path, never on the new channel — and ignores every other
message, so the surface is exposed at most once per worker lifetime. -/
theorem c6_listener_first_init_only (ms : List InMsg) :
    runListener ms =
      match ms.find? wellFormedInit with
      | none => listenerInit
      | some m => { exposed := true, bound := m.port
                  , defaultOut := [true], channelOut := [] } := by
  unfold runListener
  induction ms with
  | nil => rfl
  | cons m ms ih =>
      by_cases h : wellFormedInit m
      · rw [List.find?_cons_of_pos _ h, List.foldl_cons]
        rw [show onMessage listenerInit m
              = { exposed := true, bound := m.port
                , defaultOut := [true], channelOut := [] } from
            by simp [onMessage, listenerInit, h]]
        exact foldl_onMessage_exposed ms _ rfl
      · rw [List.find?_cons_of_neg _ h, List.foldl_cons]
        rw [show onMessage listenerInit m = listenerInit from
            by simp [onMessage, listenerInit, h]]
        exact ih

/-- C9: on every successful `query`, the promise resolves to the converted
rows: each result row is keyed by exactly the engine-reported field names in
order, and every field value is a JS string produced by the display-string
coercion — never a rich engine-native value. -/
theorem c9_query_rows_stringified (s : WState) (tok : Nat) (r : EngineResult) :
    (qFinish s tok (.success r)).2 = QueryOutcome.resolved (convertRows r) ∧
    ((convertRows r).all fun row =>
        (row.map Prod.fst == r.fields) && row.all fun p => (p.2).isStr) = true := by
  refine ⟨rfl, ?_⟩
  rw [List.all_eq_true]
  intro row hrow
  rw [convertRows, List.mem_map] at hrow
  obtain ⟨f, _, rfl⟩ := hrow
  simp [convertRow, JsValue.isStr, List.all_eq_true]
  exact List.map_id r.fields

/-- C10: in every reachable state of the worker, the
`currentQueryController` slot is non-null only while a `query` invocation is
in flight; `query`'s `finally` clears the slot on every completion path;
`cancelQuery` signals then clears the slotted controller; and with no query
in flight the slot is empty and `cancelQuery` is a no-op (and cannot
throw). -/
theorem c10_controller_slot_invariant (s : WState) (h : Reachable s) :
    (∀ t, s.slot = some t → t ∈ s.running) ∧
    (s.running = [] → s.slot = none ∧ cancelQuery s = s) ∧
    (∀ tok o, ((qFinish s tok o).1).slot = none) ∧
    (∀ t, s.slot = some t →
       (cancelQuery s).slot = none ∧ t ∈ (cancelQuery s).aborted) := by
  refine ⟨reachable_slot_mem_running h, ?_, ?_, ?_⟩
  · intro hrun
    have hnone : s.slot = none := by
      cases hsl : s.slot with
      | none => rfl
      | some t =>
          have := reachable_slot_mem_running h t hsl
          rw [hrun] at this
          simp at this
    exact ⟨hnone, by simp [cancelQuery, hnone]⟩
  · intro tok o; rfl
  · intro t ht
    simp [cancelQuery, ht]

/-- C10 witness: the invariant applied at the initial worker state — no
query in flight, empty slot, `cancelQuery` is a no-op. -/
theorem c10_controller_slot_invariant_witness :
    wInit.slot = none ∧ cancelQuery wInit = wInit :=
  (c10_controller_slot_invariant wInit Reachable.init).2.1 rfl

/-- C2, counterexample: with a handshake that never completes, both
supervisor attempts fail and the run is terminal, yet no error value is
surfaced to `initDuckDB`'s caller — the catch block swallows it and only
the readiness flag stays false — contradicting the claim that a failure on
the second attempt is surfaced to the caller. -/
theorem c2_terminal_failure_not_surfaced :
    (Provider.initDuckDB envFailBoth 0 0).attempts = 2 ∧
    (Provider.initDuckDB envFailBoth 0 0).ready = false ∧
    (Provider.initDuckDB envFailBoth 0 0).surfaced = none := by
  rw [Provider.initDuckDB, Provider.initDuckDB]
  decide

/-- C2, amended: if the first attempt fails, the supervisor terminates the
worker and re-runs the whole sequence exactly once after the fixed 1000 ms
delay; a failure of the second attempt is terminal — the worker is
terminated, readiness stays false and no third attempt is made — but the
terminal error is only logged, never surfaced to the caller. -/
theorem c2_retry_once_then_silent (env : Nat → Provider.AttemptEnv) (ctr : Nat)
    (e1 : Provider.InitError)
    (h1 : (Provider.runAttempt ctr (env 1)).outcome = .error e1) :
    (Provider.initDuckDB env 0 ctr).attempts = 2 ∧
    (Provider.initDuckDB env 0 ctr).retryDelays = [Provider.retryDelayMs] ∧
    1 ≤ (Provider.initDuckDB env 0 ctr).terminations ∧
    (∀ e2, (Provider.runAttempt (Provider.runAttempt ctr (env 1)).ctr (env 2)).outcome
          = .error e2 →
       (Provider.initDuckDB env 0 ctr).ready = false ∧
       (Provider.initDuckDB env 0 ctr).terminations = 2 ∧
       (Provider.initDuckDB env 0 ctr).surfaced = none) ∧
    ((Provider.runAttempt (Provider.runAttempt ctr (env 1)).ctr (env 2)).outcome = .ok () →
       (Provider.initDuckDB env 0 ctr).ready = true ∧
       (Provider.initDuckDB env 0 ctr).terminations = 1) := by
  cases h2 : (Provider.runAttempt (Provider.runAttempt ctr (env 1)).ctr (env 2)).outcome with
  | ok v => refine ⟨?_, ?_, ?_, ?_, ?_⟩ <;> simp [initDuckDB_run_eq, h1, h2]
  | error e2 => refine ⟨?_, ?_, ?_, ?_, ?_⟩ <;> simp [initDuckDB_run_eq, h1, h2]

/-- C2 witness: the amended retry policy evaluated on the
never-acknowledging environment. -/
theorem c2_retry_once_then_silent_witness :
    (Provider.runAttempt 0 (envFailBoth 1)).outcome
        = .error Provider.InitError.handshakeTimeout ∧
    (Provider.initDuckDB envFailBoth 0 0).attempts = 2 ∧
    (Provider.initDuckDB envFailBoth 0 0).surfaced = none := by
  have h := c2_retry_once_then_silent envFailBoth 0
      Provider.InitError.handshakeTimeout rfl
  exact ⟨rfl, h.1, (h.2.2.2.1 Provider.InitError.handshakeTimeout rfl).2.2⟩

/-- C5: the host waits at most 5000 ms for the ready ack — a delay of 5000
ms or more (or none at all) fails the establish step with the handshake
timeout — and a supervisor retry never reuses the endpoint pair: the second
attempt runs the whole establish step with a freshly created worker and
freshly created channel endpoints. -/
theorem c5_handshake_timeout_fresh_endpoints (ctr : Nat) (d : Option Nat)
    (env : Nat → Provider.AttemptEnv) (e1 : Provider.InitError)
    (hd : ∀ t, d = some t → Provider.handshakeTimeoutMs ≤ t)
    (h1 : (Provider.runAttempt ctr (env 1)).outcome = .error e1) :
    (Provider.createWorkerAPI ctr d).2.2 = .error Provider.InitError.handshakeTimeout ∧
    (Provider.initDuckDB env 0 ctr).attemptEndpoints
        = [⟨ctr, ctr + 1, ctr + 2⟩, ⟨ctr + 3, ctr + 4, ctr + 5⟩] ∧
    (∀ eA eB : Provider.Endpoints,
       (Provider.initDuckDB env 0 ctr).attemptEndpoints = [eA, eB] →
       eA.workerId ≠ eB.workerId ∧ eA.portMain ≠ eB.portMain ∧
       eA.portWorker ≠ eB.portWorker) := by
  have hends : (Provider.initDuckDB env 0 ctr).attemptEndpoints
      = [⟨ctr, ctr + 1, ctr + 2⟩, ⟨ctr + 3, ctr + 4, ctr + 5⟩] := by
    have hA := (runAttempt_endpoints ctr (env 1)).1
    have hC := (runAttempt_endpoints ctr (env 1)).2
    have hB := (runAttempt_endpoints (ctr + 3) (env 2)).1
    rw [initDuckDB_run_eq, hC]
    cases h2 : (Provider.runAttempt (ctr + 3) (env 2)).outcome with
    | ok v => simp [h1, h2, hA, hB, Provider.Endpoints.mk.injEq]
    | error e2 => simp [h1, h2, hA, hB, Provider.Endpoints.mk.injEq]
  refine ⟨?_, hends, ?_⟩
  · cases d with
    | none => rfl
    | some t =>
        have ht := hd t rfl
        simp [Provider.createWorkerAPI, Nat.not_lt.mpr ht]
  · intro eA eB heq
    rw [hends] at heq
    simp only [List.cons.injEq] at heq
    obtain ⟨rfl, rfl, -⟩ := heq
    refine ⟨?_, ?_, ?_⟩
    · show ctr ≠ ctr + 3
      omega
    · show ctr + 1 ≠ ctr + 4
      omega
    · show ctr + 2 ≠ ctr + 5
      omega

/-- C5 witness: the timeout and freshness facts evaluated on the
never-acknowledging environment. -/
theorem c5_handshake_timeout_fresh_endpoints_witness :
    (Provider.createWorkerAPI 0 none).2.2
        = .error Provider.InitError.handshakeTimeout ∧
    (Provider.initDuckDB envFailBoth 0 0).attemptEndpoints
        = [⟨0, 1, 2⟩, ⟨3, 4, 5⟩] := by
  have h := c5_handshake_timeout_fresh_endpoints 0 none envFailBoth
      Provider.InitError.handshakeTimeout (by simp) rfl
  exact ⟨h.1, h.2.1⟩

/-- C7: the worker's `getMethods` reply contains every required method
(`initialize`, `registerFile`, `query`, `ping`); and whenever an attempt
reaches the capability check with any required method absent, the attempt
fails with the missing-capability error carrying exactly the absent
methods, and a run whose attempts all miss a required method never marks
the session ready. -/
theorem c7_required_capabilities (env : Provider.AttemptEnv) (ctr : Nat)
    (envF : Nat → Provider.AttemptEnv) (ctr0 : Nat)
    (h : attemptMissesRequired env) (hF : ∀ n, attemptMissesRequired (envF n)) :
    ((Provider.requiredMethods.all fun m => workerGetMethods.contains m) = true) ∧
    (Provider.runAttempt ctr env).outcome
        = .error (.missingCapability
            (Provider.requiredMethods.filter fun m => !env.methods.contains m)) ∧
    (Provider.initDuckDB envF 0 ctr0).ready = false := by
  refine ⟨by decide, runAttempt_missing ctr env h, ?_⟩
  have h1 := runAttempt_missing ctr0 (envF 1) (hF 1)
  have h2 := runAttempt_missing (Provider.runAttempt ctr0 (envF 1)).ctr (envF 2) (hF 2)
  simp [initDuckDB_run_eq, h1, h2]

/-- C7 witness: the capability check evaluated on an environment reporting
only `ping`. -/
theorem c7_required_capabilities_witness :
    (Provider.runAttempt 0 envMissing).outcome
        = .error (.missingCapability ["initialize", "registerFile", "query"]) ∧
    (Provider.initDuckDB (fun _ => envMissing) 0 0).ready = false := by
  have hm : attemptMissesRequired envMissing :=
    ⟨⟨0, rfl, by decide⟩, rfl, rfl, by decide⟩
  have h := c7_required_capabilities envMissing 0 (fun _ => envMissing) 0 hm fun _ => hm
  refine ⟨?_, h.2.2⟩
  have h21 := h.2.1
  rw [show (Provider.requiredMethods.filter fun m => !envMissing.methods.contains m)
        = ["initialize", "registerFile", "query"] from by decide] at h21
  exact h21

/-- C8: `initialize` is idempotent — on a Ready session it returns at once
with no external effects (no bundle selection, worker creation,
instantiation or connection) and an unchanged state, and after any
successful `initialize` a second call is such a no-op, so two calls leave
the same state as one. -/
theorem c8_initialize_idempotent (env env2 : InitEnv) (s : SessionState)
    (h : s.ready = true) :
    workerInitialize env s = { state := s, effects := [], outcome := .ok () } ∧
    (workerInitialize env2 (workerInitialize env s).state).state
        = (workerInitialize env s).state ∧
    (∀ s' : SessionState, (workerInitialize env s').outcome = .ok () →
       workerInitialize env2 (workerInitialize env s').state
         = { state := (workerInitialize env s').state, effects := []
           , outcome := .ok () }) := by
  have hready : ∀ (e : InitEnv) (u : SessionState), u.ready = true →
      workerInitialize e u = { state := u, effects := [], outcome := .ok () } := by
    intro e u hu
    have hb : (u.db.isSome && u.conn.isSome) = true := hu
    simp [workerInitialize, hb]
  refine ⟨hready env s h, ?_, ?_⟩
  · rw [hready env s h]
    rw [hready env2 s h]
  · intro s' h'
    by_cases hr : (s'.db.isSome && s'.conn.isSome) = true
    · rw [hready env s' hr]
      exact hready env2 s' hr
    · have hrf : (s'.db.isSome && s'.conn.isSome) = false := by
        simpa using hr
      cases hi : env.instantiateOk with
      | false => exfalso; simp [workerInitialize, hrf, hi] at h'
      | true =>
          cases hc : env.connectOk with
          | false => exfalso; simp [workerInitialize, hrf, hi, hc] at h'
          | true =>
              have hrun : workerInitialize env s'
                  = { state := { db := some env.dbId, conn := some env.connId
                               , lastBundle := some env.bundleId
                               , initializationTimeMs := some env.durationMs }
                    , effects := [.selectBundle, .createEngineWorker, .instantiate, .connect]
                    , outcome := .ok () } := by
                simp [workerInitialize, hrf, hi, hc]
              rw [hrun]
              exact hready env2 _ (by simp [SessionState.ready])

/-- C8 witness: idempotence evaluated on a concrete Ready session. -/
theorem c8_initialize_idempotent_witness :
    (SessionState.mk (some 0) (some 0) none none).ready = true ∧
    workerInitialize ⟨0, 0, 0, true, true, 0⟩ (SessionState.mk (some 0) (some 0) none none)
      = { state := SessionState.mk (some 0) (some 0) none none
        , effects := [], outcome := .ok () } :=
  ⟨by decide,
   (c8_initialize_idempotent ⟨0, 0, 0, true, true, 0⟩ ⟨0, 0, 0, true, true, 0⟩
      (SessionState.mk (some 0) (some 0) none none) (by decide)).1⟩

/-- C4 (code bug evaluation): on the multi-line input
`SELECT 1;\nSELECT 2;` the code's sanitizer removes the first line-ending
semicolon instead of the trailing statement terminator, so the produced
subquery still ends with a semicolon — contrary to the spec's description
and to the code's own comment that the COPY subquery must not end with a
semicolon.  The single-line stripping and the EmptyQuery path behave as
claimed. -/
theorem c4_copy_sanitizer_divergence :
    cleanSqlOf ("SELECT 1;\nSELECT 2;") = "SELECT 1\nSELECT 2;" ∧
    String.mk (specStripTrailingTerminator ("SELECT 1;\nSELECT 2;").data)
        = "SELECT 1;\nSELECT 2" ∧
    cleanSqlOf ("SELECT 1;\nSELECT 2;")
        ≠ String.mk (specStripTrailingTerminator ("SELECT 1;\nSELECT 2;").data) ∧
    (cleanSqlOf ("SELECT 1;\nSELECT 2;")).data.getLast? = some (Char.ofNat 59) ∧
    cleanSqlOf ("SELECT 1;") = "SELECT 1" ∧
    copyQueryToParquet true (fun _ => .ok ()) (fun _ => []) ("   ") ("result.parquet")
        = (.error .emptyQuery, []) ∧
    (copyQueryToParquet true (fun _ => .ok ()) (fun _ => [7]) ("SELECT 1;")
        ("out.parquet")).2
      = [.connQuery ("COPY (SELECT 1) TO " ++ sqlQuote ++ "out.parquet" ++ sqlQuote
            ++ " (FORMAT PARQUET)"),
         .copyFileToBuffer ("out.parquet")] := by
  refine ⟨rfl, rfl, by decide, rfl, rfl, rfl, rfl⟩

end Duckboard
